import Mathlib

/-!
Shallow embedding of the Speech-Command-Recognition demo application
(source file `gui/visualization.py`) and proofs about its audio pipeline:
the sample reconstructor for the live-recording branch, the feature
extractor (length normalisation and fixed output shape), the classifier
wrapper (reshape and arg-max), and the prediction orchestrator
(top-10 selection and error propagation).

Machine-level conventions of the embedding: byte buffers are `List Nat`
(each entry one byte value), decoded audio signals are `List ℚ`
(exact stand-in for the float samples; no claim here depends on float
rounding), matrices are nested lists with the same axis order as the
numpy arrays in the source, and fallible steps return `Except`.
-/

namespace SCR

/-- Error kinds of the pipeline, named after the specification's error
taxonomy (§7).  `decodeError` models a failure of `librosa.load` on
unparseable bytes; `inferenceError` a shape mismatch raised by
`model.predict`; `emptyRecording` the failure of the tuple unpacking
`ind, val = zip(*recorded_file['arr'].items())` on an empty dict;
`indexError` the `IndexError` raised by the numpy fancy indexing
`val[ind]` on an out-of-range index; `overflow` the `OverflowError`
raised by `int(v).to_bytes(1, "big")` on a value above 255. -/
inductive PipeError where
  | decodeError
  | inferenceError
  | emptyRecording
  | indexError
  | overflow
  deriving DecidableEq, Repr

/-- Numpy fancy indexing `val[ind]` (line 151 of `visualization.py`):
position `j` of the result is `val[ind[j]]`; any index out of range
raises `IndexError`, modelled as `none`. -/
def fancyIndex (val : List Nat) : List Nat → Option (List Nat)
  | [] => some []
  | k :: ks =>
    match val[k]?, fancyIndex val ks with
    | some v, some rest => some (v :: rest)
    | _, _ => none

/-- The recording branch of `visualization.py` (lines 148-153): the input
is the list of `(index, value)` items of `recorded_file['arr']` in the
dict's insertion order.  `ind, val = zip(*...items())` fails on an empty
dict (`emptyRecording`); otherwise `ind` is the list of keys and `val`
the list of values, `sorted_ints = val[ind]` is numpy fancy indexing
(IndexError when a key is out of range of `val`), and each resulting
value is emitted as one byte by `int(v).to_bytes(1, "big")`
(OverflowError above 255). -/
def reconstruct (arr : List (Nat × Nat)) : Except PipeError (List Nat) :=
  if arr = [] then
    .error .emptyRecording
  else
    let ind := arr.map Prod.fst
    let val := arr.map Prod.snd
    match fancyIndex val ind with
    | none => .error .indexError
    | some sorted_ints =>
      if sorted_ints.all (fun v => v < 256) then .ok sorted_ints
      else .error .overflow

lemma fancyIndex_eq_none {val : List Nat} {ind : List Nat} {k : Nat}
    (hk : k ∈ ind) (hout : val.length ≤ k) : fancyIndex val ind = none := by
  induction ind with
  | nil => cases hk
  | cons j js ih =>
    rcases List.mem_cons.mp hk with h | h
    · subst h
      have : val[k]? = none := List.getElem?_eq_none hout
      simp [fancyIndex, this]
    · have := ih h
      simp only [fancyIndex, this]
      rcases val[j]? with _ | v <;> rfl

/-- C1 (code_bug evidence): evaluating the recording branch on the map
`{2:5, 0:1, 1:3}` delivered in that insertion order.  The spec (and the
variable name `sorted_ints`) intend the values sorted by ascending sample
index, i.e. `[1, 3, 5]`; the code computes `val[ind] = [val[2], val[0],
val[1]] = [3, 5, 1]`, applying the key permutation to the
insertion-ordered values instead of its inverse. -/
theorem c1_recording_eval :
    reconstruct [(2, 5), (0, 1), (1, 3)] = Except.ok [3, 5, 1] := by
  rfl

/-- C2: on the empty sparse sample map the reconstructor fails (the
tuple unpacking of `zip()` raises, modelled as the spec's
`EmptyRecordingError`); it never succeeds with a zero-length stream. -/
theorem c2_empty_recording :
    reconstruct [] = Except.error PipeError.emptyRecording := by
  rfl

/-- C10: whenever some sample index of the (non-empty) map is at least
the number of entries, the fancy indexing `val[ind]` goes out of bounds
and the branch fails with an IndexError; it neither zero-fills gaps nor
compacts the values into a stream. -/
theorem c10_gap_index_error (arr : List (Nat × Nat))
    (h : ∃ p ∈ arr, arr.length ≤ p.1) :
    reconstruct arr = Except.error PipeError.indexError := by
  obtain ⟨p, hmem, hge⟩ := h
  have hne : arr ≠ [] := List.ne_nil_of_mem hmem
  have hk : p.1 ∈ arr.map Prod.fst := List.mem_map_of_mem Prod.fst hmem
  have hlen : (arr.map Prod.snd).length ≤ p.1 := by
    simpa [List.length_map] using hge
  have hnone := fancyIndex_eq_none hk hlen
  simp [reconstruct, hne, hnone]

/-- Witness for C10 at the concrete map `{0:1, 5:2}`, whose key 5 is
beyond the two entries. -/
theorem c10_gap_index_error_witness :
    reconstruct [(0, 1), (5, 2)] = Except.error PipeError.indexError :=
  c10_gap_index_error [(0, 1), (5, 2)] (by decide)

/-- Fixed target sample count (line 13 of `visualization.py`). -/
def SAMPLES_TO_CONSIDER : Nat := 22050

/-- Default coefficient count of `preprocess` (line 63). -/
def num_mfcc : Nat := 13

/-- Default STFT window size of `preprocess` (line 63). -/
def n_fft : Nat := 2048

/-- Default STFT hop length of `preprocess` (line 63). -/
def hop_length : Nat := 512

/-- Length normalisation of `preprocess` (lines 76-80): signals of at
least `SAMPLES_TO_CONSIDER` samples are truncated to the first
`SAMPLES_TO_CONSIDER` (`signal[:SAMPLES_TO_CONSIDER]`), shorter ones are
right-padded with zeros (`np.pad(signal, (0, SAMPLES_TO_CONSIDER -
signal.shape[0]))`). -/
def normalizeLength (signal : List ℚ) : List ℚ :=
  if SAMPLES_TO_CONSIDER ≤ signal.length then
    signal.take SAMPLES_TO_CONSIDER
  else
    signal ++ List.replicate (SAMPLES_TO_CONSIDER - signal.length) 0

/-- Number of STFT frames produced by `librosa.feature.mfcc` for a
signal of `len` samples with the given hop length, per librosa's
documented centred framing (`center=True` pads the signal so that the
frame count is `1 + len // hop_length`, independent of the window
size). -/
def numFrames (len hop : Nat) : Nat := 1 + len / hop

/-- Shape model of `librosa.feature.mfcc` (lines 83-84): an external
library call, modelled only up to its output shape — a matrix of
`num_mfcc` rows (one per coefficient) each of `numFrames` columns (one
per time step).  The numeric coefficient values are abstracted to zero;
no claim under proof depends on them. -/
def mfcc (signal : List ℚ) (nMfcc hop : Nat) : List (List ℚ) :=
  List.replicate nMfcc (List.replicate (numFrames signal.length hop) 0)

/-- Numpy matrix transpose `MFCCs.T` (line 85) for a rectangular matrix
stored as a list of rows. -/
def npTranspose (m : List (List ℚ)) : List (List ℚ) :=
  (List.range (m.headD []).length).map (fun j => m.map (fun row => row.getD j 0))

/-- The signal-level body of `preprocess` (lines 76-85): length
normalisation, MFCC extraction, transpose so that time is the leading
axis. -/
def preprocessSignal (signal : List ℚ) : List (List ℚ) :=
  npTranspose (mfcc (normalizeLength signal) num_mfcc hop_length)

/-- `preprocess` (lines 63-85): decode the byte buffer with
`librosa.load` — an external decoder, passed as a parameter `decode`
whose failures model `DecodeError` — then apply the signal-level body. -/
def preprocess (decode : List Nat → Except PipeError (List ℚ))
    (file : List Nat) : Except PipeError (List (List ℚ)) :=
  (decode file).map preprocessSignal

lemma normalizeLength_length (signal : List ℚ) :
    (normalizeLength signal).length = SAMPLES_TO_CONSIDER := by
  unfold normalizeLength
  by_cases h : SAMPLES_TO_CONSIDER ≤ signal.length
  · simp [h, List.length_take, Nat.min_eq_left h]
  · have h' : signal.length ≤ SAMPLES_TO_CONSIDER := Nat.le_of_not_le h
    simp [h, List.length_append, List.length_replicate, Nat.add_sub_cancel' h']

/-- C3: the decoded signal is forced to exactly `SAMPLES_TO_CONSIDER` =
22050 samples before feature extraction: a signal of at least that
length becomes exactly its first 22050 samples, a shorter one becomes
itself followed by zeros up to length 22050; in particular a 0.5-second
input at 22050 Hz (11025 samples) has its entire second half exactly
zero. -/
theorem c3_fixed_length (signal : List ℚ) :
    (normalizeLength signal).length = SAMPLES_TO_CONSIDER ∧
    (SAMPLES_TO_CONSIDER ≤ signal.length →
      normalizeLength signal = signal.take SAMPLES_TO_CONSIDER) ∧
    (signal.length < SAMPLES_TO_CONSIDER →
      normalizeLength signal =
        signal ++ List.replicate (SAMPLES_TO_CONSIDER - signal.length) 0) ∧
    (signal.length = 11025 →
      (normalizeLength signal).drop 11025 = List.replicate 11025 (0 : ℚ)) := by
  refine ⟨normalizeLength_length signal, ?_, ?_, ?_⟩
  · intro h
    simp [normalizeLength, h]
  · intro h
    simp [normalizeLength, Nat.not_le.mpr h]
  · intro h
    have hlt : signal.length < SAMPLES_TO_CONSIDER := by
      rw [h]; decide
    have hpad : normalizeLength signal =
        signal ++ List.replicate (SAMPLES_TO_CONSIDER - signal.length) 0 := by
      simp [normalizeLength, Nat.not_le.mpr hlt]
    rw [hpad, h]
    have : (11025 : Nat) = signal.length := h.symm
    rw [this, List.drop_left, h]
    rfl

/-- Witness for C3 at the empty decoded signal (length 0 < 22050): it is
padded with exactly 22050 zeros. -/
theorem c3_fixed_length_witness :
    normalizeLength [] =
      [] ++ List.replicate (SAMPLES_TO_CONSIDER - List.length ([] : List ℚ)) 0 :=
  (c3_fixed_length []).2.2.1 (by decide)

lemma getD_map_of_lt {α β : Type} (f : α → β) (l : List α) (j : Nat)
    (h : j < l.length) (d : β) (d' : α) :
    (l.map f).getD j d = f (l.getD j d') := by
  have hj : j < (l.map f).length := by simpa [List.length_map] using h
  rw [List.getD_eq_getElem _ _ hj, List.getD_eq_getElem _ _ h, List.getElem_map]

lemma preprocessSignal_eq (signal : List ℚ) :
    preprocessSignal signal =
      (List.range (numFrames SAMPLES_TO_CONSIDER hop_length)).map
        (fun j =>
          (List.replicate num_mfcc
            (List.replicate (numFrames SAMPLES_TO_CONSIDER hop_length) (0 : ℚ))).map
            (fun row => row.getD j 0)) := by
  unfold preprocessSignal npTranspose mfcc
  rw [normalizeLength_length]
  have hhead :
      (List.replicate num_mfcc
        (List.replicate (numFrames SAMPLES_TO_CONSIDER hop_length) (0 : ℚ))).headD [] =
        List.replicate (numFrames SAMPLES_TO_CONSIDER hop_length) (0 : ℚ) := rfl
  rw [hhead, List.length_replicate]

/-- C7: for every decodable byte buffer, `preprocess` succeeds on the
decoded signal and its feature matrix has the fixed shape
(`numFrames SAMPLES_TO_CONSIDER hop_length`, `num_mfcc`) = (44, 13),
with time as the leading axis; the time-step count 44 = 1 + 22050 / 512
is determined by the fixed constants alone, never by the input
duration. -/
theorem c7_feature_shape (decode : List Nat → Except PipeError (List ℚ))
    (file : List Nat) (signal : List ℚ)
    (hdec : decode file = Except.ok signal) :
    preprocess decode file = Except.ok (preprocessSignal signal) ∧
    (preprocessSignal signal).length = numFrames SAMPLES_TO_CONSIDER hop_length ∧
    numFrames SAMPLES_TO_CONSIDER hop_length = 44 ∧
    (∀ i, i < (preprocessSignal signal).length →
      ((preprocessSignal signal).getD i []).length = num_mfcc) := by
  refine ⟨by simp only [preprocess, hdec]; rfl, ?_, by decide, ?_⟩
  · rw [preprocessSignal_eq]
    simp [List.length_map, List.length_range]
  · intro i hi
    rw [preprocessSignal_eq] at hi ⊢
    rw [List.length_map, List.length_range] at hi
    rw [getD_map_of_lt _ _ _ (by simpa [List.length_range] using hi) _ 0]
    simp [List.length_map, List.length_replicate]

/-- Witness for C7 with a decoder that yields the empty signal: row 0 of
the resulting feature matrix has exactly `num_mfcc` = 13 entries. -/
theorem c7_feature_shape_witness :
    ((preprocessSignal []).getD 0 []).length = num_mfcc :=
  (c7_feature_shape (fun _ => Except.ok []) [] [] rfl).2.2.2 0
    (by rw [preprocessSignal_eq]; simp only [List.length_map, List.length_range]; decide)

/-- The fixed ordered label vocabulary (lines 18-54 of
`visualization.py`), in source order. -/
def mapping : List String :=
  ["right", "eight", "cat", "tree", "backward", "learn", "bed", "happy",
   "go", "dog", "no", "wow", "follow", "nine", "left", "stop", "three",
   "sheila", "one", "bird", "zero", "seven", "up", "visual", "marvin",
   "two", "house", "down", "six", "yes", "on", "five", "forward", "off",
   "four"]

/-- The reshape `MFCCs[np.newaxis, ..., np.newaxis]` (line 100): a batch
axis of size 1 is prepended and a channel axis of size 1 is appended to
the 2-D feature matrix, giving shape (1, T, C, 1). -/
def addBatchChannel (m : List (List ℚ)) : List (List (List (List ℚ))) :=
  [m.map (fun row => row.map (fun x => [x]))]

/-- C8: the pre-inference reshape of a feature matrix of shape (T, C)
yields the 4-D shape (1, T, C, 1) — batch size 1 in front, channel size
1 behind — and entry (0, t, c, 0) of the result is entry (t, c) of the
input; the transform is a fixed parameter-free function of the matrix
alone. -/
theorem c8_reshape (m : List (List ℚ)) :
    (addBatchChannel m).length = 1 ∧
    ((addBatchChannel m).getD 0 []).length = m.length ∧
    (∀ t, t < m.length →
      (((addBatchChannel m).getD 0 []).getD t []).length = (m.getD t []).length) ∧
    (∀ t c, t < m.length → c < (m.getD t []).length →
      ((((addBatchChannel m).getD 0 []).getD t []).getD c []) =
        [(m.getD t []).getD c 0]) := by
  refine ⟨rfl, by simp [addBatchChannel], ?_, ?_⟩
  · intro t ht
    show ((m.map (fun row => row.map (fun x => [x]))).getD t []).length = _
    rw [getD_map_of_lt _ _ _ ht _ []]
    simp [List.length_map]
  · intro t c ht hc
    show (((m.map (fun row => row.map (fun x => [x]))).getD t []).getD c []) = _
    rw [getD_map_of_lt _ _ _ ht _ []]
    rw [getD_map_of_lt _ _ _ hc _ 0]

/-- Witness for C8 at the 1-by-1 matrix `[[7]]`: entry (0, 0, 0, 0) of
the reshaped array is entry (0, 0) of the input, wrapped as a singleton
channel. -/
theorem c8_reshape_witness :
    ((((addBatchChannel [[(7 : ℚ)]]).getD 0 []).getD 0 []).getD 0 []) =
      [(([[(7 : ℚ)]].getD 0 []).getD 0 0)] :=
  (c8_reshape [[(7 : ℚ)]]).2.2.2 0 0 (by decide) (by decide)

/-- Index of the first occurrence of the maximum of a confidence vector,
modelling `np.argmax(predictions)` (line 104): numpy documents the
result as the index of the first occurrence of the maximum value of the
flattened array. -/
def npArgmax (l : List ℚ) : Nat :=
  l.indexOf (WithBot.unbot' 0 l.maximum)

lemma npArgmax_lt_length {l : List ℚ} (h : l ≠ []) : npArgmax l < l.length := by
  obtain ⟨m, hm⟩ :=
    Option.ne_none_iff_exists'.mp (List.maximum_ne_bot_of_ne_nil h)
  rw [npArgmax, hm]
  exact List.indexOf_lt_length.mpr (List.maximum_mem hm)

lemma getD_le_getD_npArgmax {l : List ℚ} (h : l ≠ []) (i : Nat)
    (hi : i < l.length) : l.getD i 0 ≤ l.getD (npArgmax l) 0 := by
  obtain ⟨m, hm⟩ :=
    Option.ne_none_iff_exists'.mp (List.maximum_ne_bot_of_ne_nil h)
  have harg : npArgmax l = l.indexOf m := by rw [npArgmax, hm]; rfl
  have hlt : l.indexOf m < l.length :=
    List.indexOf_lt_length.mpr (List.maximum_mem hm)
  have hval : l.getD (npArgmax l) 0 = m := by
    rw [harg, List.getD_eq_getElem _ _ hlt, List.getElem_indexOf hlt]
  rw [hval, List.getD_eq_getElem _ _ hi]
  exact List.le_maximum_of_mem (List.getElem_mem hi) hm

/-- `CNN_predict` (lines 90-106): extract the feature matrix with
`preprocess`, reshape it to (1, T, C, 1), run the external model —
passed as the parameter `modelFn`, which returns the flattened
confidence row `predictions.flatten()` and whose failures model
`InferenceError` — then return the label at
`np.argmax(predictions)` together with the flattened confidence
vector. -/
def CNN_predict (decode : List Nat → Except PipeError (List ℚ))
    (modelFn : List (List (List (List ℚ))) → Except PipeError (List ℚ))
    (file : List Nat) : Except PipeError (String × List ℚ) :=
  match preprocess decode file with
  | .error e => .error e
  | .ok MFCCs =>
    match modelFn (addBatchChannel MFCCs) with
    | .error e => .error e
    | .ok predictions =>
      .ok (mapping.getD (npArgmax predictions) "", predictions)

/-- C6: when decoding succeeds and the model returns a confidence vector
of the same length as the 35-label vocabulary, `CNN_predict` returns
exactly the label sitting at the arg-max index of that vector together
with the vector itself, unchanged and in model order (so position `i`
still corresponds to label `i`); the arg-max index is in range and
carries a maximal confidence. -/
theorem c6_predict_argmax (decode : List Nat → Except PipeError (List ℚ))
    (modelFn : List (List (List (List ℚ))) → Except PipeError (List ℚ))
    (file : List Nat) (signal : List ℚ) (out : List ℚ)
    (hdec : decode file = Except.ok signal)
    (hmod : modelFn (addBatchChannel (preprocessSignal signal)) = Except.ok out)
    (hlen : out.length = mapping.length) :
    CNN_predict decode modelFn file =
      Except.ok (mapping.getD (npArgmax out) "", out) ∧
    mapping.length = 35 ∧
    npArgmax out < out.length ∧
    (∀ i, i < out.length → out.getD i 0 ≤ out.getD (npArgmax out) 0) := by
  have hne : out ≠ [] := by
    intro hnil
    rw [hnil] at hlen
    exact absurd hlen.symm (by decide)
  refine ⟨?_, by decide, npArgmax_lt_length hne, fun i hi => getD_le_getD_npArgmax hne i hi⟩
  have hpre : preprocess decode file = Except.ok (preprocessSignal signal) := by
    simp only [preprocess, hdec]; rfl
  simp only [CNN_predict, hpre, hmod]

/-- Witness for C6 with a decoder yielding the empty signal and a model
that always answers the constant confidence vector with 35 entries of
value zero: the predicted pair is the arg-max label with that vector. -/
theorem c6_predict_argmax_witness :
    CNN_predict (fun _ => Except.ok []) (fun _ => Except.ok (List.replicate 35 0)) [] =
      Except.ok (mapping.getD (npArgmax (List.replicate 35 0)) "", List.replicate 35 0) :=
  (c6_predict_argmax (fun _ => Except.ok [])
    (fun _ => Except.ok (List.replicate 35 0)) [] [] (List.replicate 35 0)
    rfl rfl (by decide)).1

/-- The top-10 selection of `create_visualization` (lines 131-135):
`ind = np.argpartition(confidences, -10)[-10:]` keeps the last 10
positions of the partitioned index array, and the chart data pairs
`np.array(mapping)[ind]` with `confidences[ind]` positionally.  The
partitioned index array itself is the parameter `perm`, since numpy
leaves its internal order unspecified. -/
def topSelection (v : List ℚ) (perm : List Nat) : List (String × ℚ) :=
  (perm.drop (perm.length - 10)).map (fun i => (mapping.getD i "", v.getD i 0))

/-- Contract of `np.argpartition(v, kth)` (for `kth` = 25 = 35 - 10 in
the source): the result is a rearrangement of the indices
`0 .. v.length - 1` such that every element before position `kth` is at
most the element at position `kth`, and every element from position
`kth` on is at least it.  The order inside the two blocks is
unspecified; any `perm` satisfying this predicate is an admissible
outcome. -/
def ValidArgpartition (v : List ℚ) (kth : Nat) (perm : List Nat) : Prop :=
  perm.length = v.length ∧ perm.Nodup ∧ (∀ i ∈ perm, i < v.length) ∧
  (∀ j ∈ perm.take kth, v.getD j 0 ≤ v.getD (perm.getD kth 0) 0) ∧
  (∀ i ∈ perm.drop kth, v.getD (perm.getD kth 0) 0 ≤ v.getD i 0)

/-- Boolean check that a list of rationals is weakly descending. -/
def isSortedDesc : List ℚ → Bool
  | [] => true
  | [_] => true
  | a :: b :: t => decide (b ≤ a) && isSortedDesc (b :: t)

/-- The strictly ascending confidence vector 0, 1, ..., 34. -/
def v35asc : List ℚ := (List.range 35).map (fun n => (n : ℚ))

/-- C4 counterexample: the identity index order is an admissible
`argpartition` outcome on the ascending confidence vector (its top-10
block holds the 10 largest confidences), yet the resulting
(label, confidence) sequence is *ascending* in confidence, not the
descending order the claim asserts — the code never sorts the returned
sequence, only the rendered chart axis. -/
theorem c4_counterexample :
    ValidArgpartition v35asc 25 (List.range 35) ∧
    isSortedDesc ((topSelection v35asc (List.range 35)).map Prod.snd) = false :=
  ⟨by refine ⟨?_, ?_, ?_, ?_, ?_⟩ <;> decide, by decide⟩

/-- C4 (amended): for every 35-entry confidence vector and every
admissible `argpartition` outcome, the orchestrator's selection is 10
pairs, pairing each selected index's label with that same index's
confidence, over 10 distinct in-range indices whose confidences all
dominate every non-selected confidence (a true top-10 selection); the
order of the 10 pairs is the unspecified argpartition block order. -/
theorem c4_top_ten (v : List ℚ) (perm : List Nat) (hv : v.length = 35)
    (hap : ValidArgpartition v 25 perm) :
    (topSelection v perm).length = 10 ∧
    topSelection v perm =
      (perm.drop 25).map (fun i => (mapping.getD i "", v.getD i 0)) ∧
    (perm.drop 25).Nodup ∧
    (∀ i ∈ perm.drop 25, i < 35) ∧
    (∀ i ∈ perm.drop 25, ∀ j ∈ perm.take 25, v.getD j 0 ≤ v.getD i 0) := by
  obtain ⟨hlen, hnodup, hbound, hle1, hle2⟩ := hap
  have hplen : perm.length = 35 := by rw [hlen, hv]
  have h25 : perm.length - 10 = 25 := by rw [hplen]
  have hsel : topSelection v perm =
      (perm.drop 25).map (fun i => (mapping.getD i "", v.getD i 0)) := by
    rw [topSelection, h25]
  refine ⟨?_, hsel, ?_, ?_, ?_⟩
  · rw [hsel, List.length_map, List.length_drop, hplen]
  · exact hnodup.sublist (List.drop_sublist 25 perm)
  · intro i hi
    have := hbound i (List.mem_of_mem_drop hi)
    rwa [hv] at this
  · intro i hi j hj
    exact le_trans (hle1 j hj) (hle2 i hi)

/-- Witness for C4 (amended) at the ascending vector with the identity
argpartition outcome: the selection has exactly 10 pairs. -/
theorem c4_top_ten_witness :
    (topSelection v35asc (List.range 35)).length = 10 :=
  (c4_top_ten v35asc (List.range 35) (by decide)
    (by refine ⟨?_, ?_, ?_, ?_, ?_⟩ <;> decide)).1

/-- Elements the orchestrator hands to the presentation layer: the
`st.markdown` message with the top word (line 129) and the chart data
series (lines 135-140). -/
inductive UIElem where
  | markdown (text : String)
  | chart (data : List (String × ℚ))
  deriving DecidableEq, Repr

/-- `create_visualization` (lines 127-140): run `CNN_predict` on the
byte buffer, then emit the heard-word message and the top-10 confidence
chart.  There is no `try/except` in the source: a failing pipeline step
propagates out of the function before any element is emitted. -/
def create_visualization (decode : List Nat → Except PipeError (List ℚ))
    (modelFn : List (List (List (List ℚ))) → Except PipeError (List ℚ))
    (perm : List Nat) (file : List Nat) : Except PipeError (List UIElem) :=
  match CNN_predict decode modelFn file with
  | .error e => .error e
  | .ok (kw, confidences) =>
    .ok [UIElem.markdown ("I heard the word \"" ++ kw ++ "\""),
         UIElem.chart (topSelection confidences perm)]

/-- C5 counterexample: on undecodable bytes (a decoder that raises
`DecodeError`), the orchestrator result is not a success carrying a
visible message — the error escapes `create_visualization` uncaught, so
it is not handled at the orchestrator boundary as the claim states
(surfacing is left to the enclosing UI framework). -/
theorem c5_counterexample :
    (create_visualization (fun _ => Except.error PipeError.decodeError)
      (fun _ => Except.ok []) (List.range 35) []).isOk = false := by
  rfl

/-- C5 (amended): every per-request pipeline error propagates out of
`create_visualization` unchanged and uncaught, with no retry and no
partial output — on failure not a single presentation element has been
emitted, and on success exactly the full message-plus-chart pair is. -/
theorem c5_propagation (decode : List Nat → Except PipeError (List ℚ))
    (modelFn : List (List (List (List ℚ))) → Except PipeError (List ℚ))
    (perm : List Nat) (file : List Nat) :
    (∀ e, CNN_predict decode modelFn file = Except.error e →
      create_visualization decode modelFn perm file = Except.error e) ∧
    (∀ kw confidences,
      CNN_predict decode modelFn file = Except.ok (kw, confidences) →
      create_visualization decode modelFn perm file =
        Except.ok [UIElem.markdown ("I heard the word \"" ++ kw ++ "\""),
                   UIElem.chart (topSelection confidences perm)]) := by
  constructor
  · intro e he
    simp [create_visualization, he]
  · intro kw confidences h
    simp [create_visualization, h]

/-- Witness for C5 (amended): with the failing decoder, the
`DecodeError` comes back verbatim from the orchestrator. -/
theorem c5_propagation_witness :
    create_visualization (fun _ => Except.error PipeError.decodeError)
      (fun _ => Except.ok []) (List.range 35) [] =
      Except.error PipeError.decodeError :=
  (c5_propagation (fun _ => Except.error PipeError.decodeError)
    (fun _ => Except.ok []) (List.range 35) []).1 PipeError.decodeError rfl

/-- The output column branch (lines 142-154): if an uploaded file is
present its bytes go to `create_visualization`; only otherwise, when the
recorder returned a dict, the reconstructed recording bytes do; with
neither, nothing runs.  The result is the byte buffer (or reconstruction
outcome) fed to the pipeline, `none` when no pipeline run happens. -/
def outputBranch (uploaded : Option (List Nat))
    (recorded : Option (List (Nat × Nat))) :
    Option (Except PipeError (List Nat)) :=
  match uploaded with
  | some fileBytes => some (Except.ok fileBytes)
  | none =>
    match recorded with
    | some arr => some (reconstruct arr)
    | none => none

/-- C9: when an uploaded file and a completed recording are both
present, the pipeline runs on exactly the uploaded bytes; the recorded
data is never consulted (the right-hand side does not depend on `r`). -/
theorem c9_upload_precedence (u : List Nat) (r : List (Nat × Nat)) :
    outputBranch (some u) (some r) = some (Except.ok u) := rfl

end SCR
